import Mathlib

/-!
Shallow embedding of the physics orchestration core of the
jolt-raylib-hello-world repository (src/physics.h, src/constants.h
[PhysicsEngine member definitions], src/main.cpp).

The Jolt physics library itself is an external collaborator: the embedding
models the repository's own orchestration code — layer filtering policy,
the PhysicsEngine lifecycle methods, and the main stepping loop — and
records the calls made into the external library as an explicit trace
(`Call` events).  Responses of the external library that the orchestration
branches on (IsActive, body positions/velocities) enter as an explicit
oracle value (`BodyInterfaceView`) describing what the Jolt body interface
reports at the moment of the call.

Scalar values (times, coordinates) are modelled as `Rat`: the orchestration
code only copies and compares them, so exact rationals are a faithful
stand-in for the C++ float/double values as far as control flow and data
flow are concerned.
-/

namespace JoltRaylib

/-- Object layers, from src/physics.h namespace Layers
(JPH::ObjectLayer is an integer tag; modelled as Nat). -/
def Layers.NON_MOVING : Nat := 0

/-- Layers::MOVING = 1 (src/physics.h). -/
def Layers.MOVING : Nat := 1

/-- Layers::NUM_LAYERS = 2 (src/physics.h). -/
def Layers.NUM_LAYERS : Nat := 2

/-- Broad-phase layers, from src/physics.h namespace BroadPhaseLayers. -/
def BroadPhaseLayers.NON_MOVING : Nat := 0

/-- BroadPhaseLayers::MOVING = 1 (src/physics.h). -/
def BroadPhaseLayers.MOVING : Nat := 1

/-- BroadPhaseLayers::NUM_LAYERS = 2 (src/physics.h). -/
def BroadPhaseLayers.NUM_LAYERS : Nat := 2

/-- ObjectLayerPairFilterImpl::ShouldCollide (src/physics.h lines 44-58).
The C++ is a switch on inObject1: NON_MOVING collides only with MOVING,
MOVING collides with everything, and the default branch is
JPH_ASSERT(false); return false (the assert compiles out in release). -/
def ObjectLayerPairFilterImpl.ShouldCollide (inObject1 inObject2 : Nat) : Bool :=
  if inObject1 = Layers.NON_MOVING then
    decide (inObject2 = Layers.MOVING)
  else if inObject1 = Layers.MOVING then
    true
  else
    false

/-- The object-layer → broad-phase-layer table built by the
BPLayerInterfaceImpl constructor (src/physics.h lines 81-86):
mObjectToBroadPhase[NON_MOVING] = BroadPhaseLayers::NON_MOVING,
mObjectToBroadPhase[MOVING] = BroadPhaseLayers::MOVING. -/
def BPLayerInterfaceImpl.mObjectToBroadPhase : List Nat :=
  [BroadPhaseLayers.NON_MOVING, BroadPhaseLayers.MOVING]

/-- BPLayerInterfaceImpl::GetBroadPhaseLayer (src/physics.h lines 93-98):
JPH_ASSERT(inLayer < Layers::NUM_LAYERS) then a direct table read.
`none` models the assertion firing on an out-of-range layer; `some b`
is the table entry returned on the in-range path. -/
def BPLayerInterfaceImpl.GetBroadPhaseLayer (inLayer : Nat) : Option Nat :=
  if inLayer < Layers.NUM_LAYERS then
    some (BPLayerInterfaceImpl.mObjectToBroadPhase.getD inLayer 0)
  else
    none

/-- Stand-in for raylib Vector3 / JPH::RVec3: three scalar coordinates. -/
structure Vector3 where
  x : Rat
  y : Rat
  z : Rat
  deriving DecidableEq, Repr

/-- Opaque stand-in for JPH::Body; MyContactListener::OnContactValidate
ignores its body arguments entirely. -/
structure Body where
  id : Nat
  deriving DecidableEq, Repr

/-- Opaque stand-in for JPH::CollideShapeResult; likewise ignored. -/
structure CollideShapeResult where
  penetrationDepth : Rat
  deriving DecidableEq, Repr

/-- JPH::ValidateResult, the return type of OnContactValidate. -/
inductive ValidateResult where
  | AcceptAllContactsForThisBodyPair
  | AcceptContact
  | RejectContact
  | RejectAllContactsForThisBodyPair
  deriving DecidableEq, Repr

/-- MyContactListener::OnContactValidate (src/physics.h lines 149-160):
logs a line and unconditionally returns
ValidateResult::AcceptAllContactsForThisBodyPair. -/
def MyContactListener.OnContactValidate (inBody1 : Body) (inBody2 : Body)
    (inBaseOffset : Vector3) (inCollisionResult : CollideShapeResult) :
    ValidateResult :=
  ValidateResult.AcceptAllContactsForThisBodyPair

/-- The two bodies this program creates (sphere = dynamic ball,
floor = static box). -/
inductive BodyKind where
  | sphere
  | floor
  deriving DecidableEq, Repr

/-- Calls the orchestration code makes into the external libraries
(Jolt, and Game_Update on the raylib/imgui side), recorded as trace
events in program order. -/
inductive Call where
  | registerDefaultAllocator
  | installTraceCallback
  | installAssertCallback
  | factoryNew
  | registerTypes
  | tempAllocatorNew (bytes : Nat)
  | jobSystemNew
  | broadPhaseLayerInterfaceNew
  | objectVsBroadPhaseLayerFilterNew
  | objectLayerPairFilterNew
  | physicsSystemNew
  | physicsSystemInit (maxBodies : Nat) (numBodyMutexes : Nat)
      (maxBodyPairs : Nat) (maxContactConstraints : Nat)
  | setBodyActivationListener
  | setContactListener
  | gameUpdate
  | isActiveQuery
  | logInactive
  | getCenterOfMassPosition
  | getLinearVelocity
  | logStep (n : Nat)
  | physicsUpdate (deltaTime : Rat) (collisionSteps : Int)
  | removeBody (b : BodyKind)
  | destroyBody (b : BodyKind)
  | unregisterTypes
  | factoryDelete
  | factorySetNull
  deriving DecidableEq, Repr

/-- Does a trace event perform the engine step (PhysicsSystem::Update)? -/
def Call.isPhysicsUpdate : Call → Bool
  | Call.physicsUpdate _ _ => true
  | _ => false

/-- Whether a call trace contains an engine step. -/
def steppedIn (calls : List Call) : Bool :=
  calls.any Call.isPhysicsUpdate

/-- PhysicsEngine::initialise (src/constants.h lines 143-252), as the trace
of external calls it performs in program order.  The assert-callback
installation is guarded by JPH_ENABLE_ASSERTS (JPH_IF_ENABLE_ASSERTS),
hence the `enableAsserts` parameter.  The numeric arguments to Init are
the cMaxBodies/cNumBodyMutexes/cMaxBodyPairs/cMaxContactConstraints
constants (1024, 0, 1024, 1024). -/
def PhysicsEngine.initialise (enableAsserts : Bool) : List Call :=
  [Call.registerDefaultAllocator, Call.installTraceCallback]
    ++ (if enableAsserts then [Call.installAssertCallback] else [])
    ++ [Call.factoryNew,
        Call.registerTypes,
        Call.tempAllocatorNew (10 * 1024 * 1024),
        Call.jobSystemNew,
        Call.broadPhaseLayerInterfaceNew,
        Call.objectVsBroadPhaseLayerFilterNew,
        Call.objectLayerPairFilterNew,
        Call.physicsSystemNew,
        Call.physicsSystemInit 1024 0 1024 1024,
        Call.setBodyActivationListener,
        Call.setContactListener]

/-- PhysicsEngine::cleanup (src/constants.h lines 390-411), as the trace of
external calls it performs in program order. -/
def PhysicsEngine.cleanup : List Call :=
  [Call.removeBody BodyKind.sphere,
   Call.destroyBody BodyKind.sphere,
   Call.removeBody BodyKind.floor,
   Call.destroyBody BodyKind.floor,
   Call.unregisterTypes,
   Call.factoryDelete,
   Call.factorySetNull]

/-- JPH::uint (_step's type) is a 32-bit unsigned integer. -/
def UINT32_MOD : Nat := 4294967296

/-- The PhysicsEngine state the orchestration code itself owns and
mutates: the `_step` counter (JPH::uint _step{0}).  The unique_ptr
members hold external-library objects whose observable responses are
supplied by the `BodyInterfaceView` oracle. -/
structure PhysicsEngine where
  stepCounter : Nat
  deriving DecidableEq, Repr

/-- What the Jolt body interface reports about the dynamic sphere at the
moment PhysicsEngine::update queries it (pre-step state for that call). -/
structure BodyInterfaceView where
  isActive : Bool
  centerOfMassPosition : Vector3
  linearVelocity : Vector3
  deriving DecidableEq, Repr

/-- cCollisionSteps constant inside PhysicsEngine::update
(src/constants.h line 379). -/
def cCollisionSteps : Int := 1

/-- Result of one PhysicsEngine::update call: the new engine state, the
bool return value, the value of the by-reference sphere_position
parameter on return, and the trace of external calls made. -/
structure UpdateResult where
  engine : PhysicsEngine
  returned : Bool
  sphere_position : Vector3
  calls : List Call
  deriving DecidableEq, Repr

/-- PhysicsEngine::update (src/constants.h lines 342-388).
Program order: ++_step; IsActive query — if inactive, log and return
false leaving sphere_position untouched; otherwise query position and
velocity, log them, overwrite sphere_position with the queried position,
construct a fresh 10 MiB temp allocator, and call PhysicsSystem::Update
with the frame delta time and cCollisionSteps = 1, returning true. -/
def PhysicsEngine.update (e : PhysicsEngine) (bi : BodyInterfaceView)
    (cDeltaTime : Rat) (sphere_position : Vector3) : UpdateResult :=
  let e2 : PhysicsEngine := { stepCounter := (e.stepCounter + 1) % UINT32_MOD }
  if !bi.isActive then
    { engine := e2
      returned := false
      sphere_position := sphere_position
      calls := [Call.isActiveQuery, Call.logInactive] }
  else
    let position := bi.centerOfMassPosition
    { engine := e2
      returned := true
      sphere_position := position
      calls := [Call.isActiveQuery,
                Call.getCenterOfMassPosition,
                Call.getLinearVelocity,
                Call.logStep e2.stepCounter,
                Call.tempAllocatorNew (10 * 1024 * 1024),
                Call.physicsUpdate cDeltaTime cCollisionSteps] }

/-- constants::kTickrate (src/constants.h line 14). -/
def kTickrate : Nat := 60

/-- kMillisecondsPerSecond constant in main (src/main.cpp line 61). -/
def kMillisecondsPerSecond : Nat := 1000

/-- The tick-gate threshold computed in the loop condition
(src/main.cpp lines 97-100):
kMillisecondsPerSecond / kTickrate / kMillisecondsPerSecond. -/
def tickGateThreshold : Rat :=
  (kMillisecondsPerSecond : Rat) / (kTickrate : Rat)
    / (kMillisecondsPerSecond : Rat)

/-- Per-frame inputs to one iteration of the main loop: the frame delta
time (GetFrameTime), the two successive GetTime() samples (one read in
the gate condition, one read to reset tickTimer), and the body-interface
oracle for this frame's PhysicsEngine::update call. -/
structure FrameInput where
  frameTime : Rat
  timeSample1 : Rat
  timeSample2 : Rat
  bodyView : BodyInterfaceView
  deriving DecidableEq, Repr

/-- Loop-carried state of main's while loop relevant to physics:
tickTimer, sphere_position, and the PhysicsEngine. -/
structure LoopState where
  tickTimer : Rat
  sphere_position : Vector3
  engine : PhysicsEngine
  deriving DecidableEq, Repr

/-- The tick-gate condition of src/main.cpp lines 97-100:
GetTime() - tickTimer > 1000/60/1000. -/
def tickGateFires (s : LoopState) (fi : FrameInput) : Bool :=
  decide (fi.timeSample1 - s.tickTimer > tickGateThreshold)

/-- One iteration of the while loop in main (src/main.cpp lines 94-158),
restricted to the physics-relevant effects.  The tick gate, when it
fires, resets tickTimer to a fresh GetTime() sample and calls
Game_Update (UI/input); drawing is external and recorded as no events;
the iteration ends with an unconditional physics_engine.update call
passing the frame delta time. -/
def loopIteration (s : LoopState) (fi : FrameInput) : LoopState × List Call :=
  let frame_time := fi.frameTime
  let gate := tickGateFires s fi
  let tickTimer2 := if gate then fi.timeSample2 else s.tickTimer
  let gateCalls := if gate then [Call.gameUpdate] else []
  let r := s.engine.update fi.bodyView frame_time s.sphere_position
  ({ tickTimer := tickTimer2
     sphere_position := r.sphere_position
     engine := r.engine },
   gateCalls ++ r.calls)

/-! Theorems. -/

/-- Claim C4: the object-layer pair filter implements the stated policy and
is symmetric: for all object layers A, B in NON_MOVING/MOVING,
ShouldCollide(A,B) = ShouldCollide(B,A), with NON_MOVING vs NON_MOVING
false, NON_MOVING vs MOVING true, and MOVING vs anything true. -/
theorem objectLayerPairFilter_policy :
    (∀ a b : Nat, a < Layers.NUM_LAYERS → b < Layers.NUM_LAYERS →
        ObjectLayerPairFilterImpl.ShouldCollide a b
          = ObjectLayerPairFilterImpl.ShouldCollide b a)
    ∧ ObjectLayerPairFilterImpl.ShouldCollide Layers.NON_MOVING Layers.NON_MOVING
        = false
    ∧ ObjectLayerPairFilterImpl.ShouldCollide Layers.NON_MOVING Layers.MOVING
        = true
    ∧ (∀ x : Nat, ObjectLayerPairFilterImpl.ShouldCollide Layers.MOVING x = true)
    := by
  refine ⟨?_, by decide, by decide, ?_⟩
  · intro a b ha hb
    unfold Layers.NUM_LAYERS at ha hb
    interval_cases a <;> interval_cases b <;> decide
  · intro x
    simp [ObjectLayerPairFilterImpl.ShouldCollide, Layers.NON_MOVING,
          Layers.MOVING]

/-- Witness for C4 at the concrete layers 0 and 1. -/
theorem objectLayerPairFilter_policy_witness :
    ObjectLayerPairFilterImpl.ShouldCollide 0 1
      = ObjectLayerPairFilterImpl.ShouldCollide 1 0 :=
  objectLayerPairFilter_policy.1 0 1 (by decide) (by decide)

/-- Claim C8: GetBroadPhaseLayer is a direct table lookup that is
assertion-safe for in-range inputs: for every layer L < NUM_LAYERS it
returns the constructor-built table entry (NON_MOVING ↦ broad-phase
NON_MOVING, MOVING ↦ broad-phase MOVING) and the assertion path is not
taken; an out-of-range layer hits the assertion (`none`). -/
theorem getBroadPhaseLayer_lookup :
    BPLayerInterfaceImpl.GetBroadPhaseLayer Layers.NON_MOVING
        = some BroadPhaseLayers.NON_MOVING
    ∧ BPLayerInterfaceImpl.GetBroadPhaseLayer Layers.MOVING
        = some BroadPhaseLayers.MOVING
    ∧ (∀ L : Nat, L < Layers.NUM_LAYERS →
        BPLayerInterfaceImpl.GetBroadPhaseLayer L
          = some (BPLayerInterfaceImpl.mObjectToBroadPhase.getD L 0))
    ∧ (∀ L : Nat, Layers.NUM_LAYERS ≤ L →
        BPLayerInterfaceImpl.GetBroadPhaseLayer L = none) := by
  refine ⟨by decide, by decide, ?_, ?_⟩
  · intro L h
    unfold BPLayerInterfaceImpl.GetBroadPhaseLayer
    rw [if_pos h]
  · intro L h
    unfold BPLayerInterfaceImpl.GetBroadPhaseLayer
    rw [if_neg (by omega)]

/-- Witness for C8 at the in-range layer 1 and the out-of-range layer 5. -/
theorem getBroadPhaseLayer_lookup_witness :
    BPLayerInterfaceImpl.GetBroadPhaseLayer 1
        = some (BPLayerInterfaceImpl.mObjectToBroadPhase.getD 1 0)
    ∧ BPLayerInterfaceImpl.GetBroadPhaseLayer 5 = none :=
  ⟨getBroadPhaseLayer_lookup.2.2.1 1 (by decide),
   getBroadPhaseLayer_lookup.2.2.2 5 (by decide)⟩

/-- Claim C9: the contact listener never vetoes a contact: for every pair
of bodies, base offset, and collision result, OnContactValidate returns
AcceptAllContactsForThisBodyPair; no input produces a rejection. -/
theorem onContactValidate_accepts_all :
    ∀ (b1 b2 : Body) (off : Vector3) (res : CollideShapeResult),
      MyContactListener.OnContactValidate b1 b2 off res
          = ValidateResult.AcceptAllContactsForThisBodyPair
      ∧ MyContactListener.OnContactValidate b1 b2 off res
          ≠ ValidateResult.RejectContact
      ∧ MyContactListener.OnContactValidate b1 b2 off res
          ≠ ValidateResult.RejectAllContactsForThisBodyPair := by
  intro b1 b2 off res
  refine ⟨rfl, ?_, ?_⟩ <;> simp [MyContactListener.OnContactValidate]

/-- Claim C5: initialise performs the four global setup steps in order —
default allocator hooks, trace (and, when asserts are enabled, assert)
callbacks, factory singleton, RegisterTypes — and only after all four
does it construct and Init the PhysicsSystem (with limits 1024/0/1024/1024). -/
theorem initialise_setup_order :
    ∀ enableAsserts : Bool,
      (((PhysicsEngine.initialise enableAsserts).indexOf
            Call.registerDefaultAllocator
          < (PhysicsEngine.initialise enableAsserts).indexOf
            Call.installTraceCallback)
        ∧ ((PhysicsEngine.initialise enableAsserts).indexOf
            Call.installTraceCallback
          < (PhysicsEngine.initialise enableAsserts).indexOf Call.factoryNew)
        ∧ ((PhysicsEngine.initialise enableAsserts).indexOf Call.factoryNew
          < (PhysicsEngine.initialise enableAsserts).indexOf Call.registerTypes)
        ∧ ((PhysicsEngine.initialise enableAsserts).indexOf Call.registerTypes
          < (PhysicsEngine.initialise enableAsserts).indexOf
            Call.physicsSystemNew)
        ∧ ((PhysicsEngine.initialise enableAsserts).indexOf
            Call.physicsSystemNew
          < (PhysicsEngine.initialise enableAsserts).indexOf
            (Call.physicsSystemInit 1024 0 1024 1024))
        ∧ Call.registerDefaultAllocator ∈ PhysicsEngine.initialise enableAsserts
        ∧ Call.installTraceCallback ∈ PhysicsEngine.initialise enableAsserts
        ∧ Call.factoryNew ∈ PhysicsEngine.initialise enableAsserts
        ∧ Call.registerTypes ∈ PhysicsEngine.initialise enableAsserts
        ∧ Call.physicsSystemNew ∈ PhysicsEngine.initialise enableAsserts
        ∧ Call.physicsSystemInit 1024 0 1024 1024
            ∈ PhysicsEngine.initialise enableAsserts)
      ∧ (enableAsserts = true →
          ((PhysicsEngine.initialise enableAsserts).indexOf
              Call.installTraceCallback
            < (PhysicsEngine.initialise enableAsserts).indexOf
              Call.installAssertCallback)
          ∧ ((PhysicsEngine.initialise enableAsserts).indexOf
              Call.installAssertCallback
            < (PhysicsEngine.initialise enableAsserts).indexOf Call.factoryNew)
          ∧ Call.installAssertCallback
              ∈ PhysicsEngine.initialise enableAsserts) := by
  intro b
  cases b <;> decide

/-- Witness for C5 with asserts enabled: the assert callback is installed
between the trace callback and the factory construction. -/
theorem initialise_setup_order_witness :
    ((PhysicsEngine.initialise true).indexOf Call.installTraceCallback
      < (PhysicsEngine.initialise true).indexOf Call.installAssertCallback)
    ∧ ((PhysicsEngine.initialise true).indexOf Call.installAssertCallback
      < (PhysicsEngine.initialise true).indexOf Call.factoryNew) :=
  ⟨((initialise_setup_order true).2 rfl).1,
   ((initialise_setup_order true).2 rfl).2.1⟩

/-- Claim C6: cleanup tears down in reverse dependency order: for the
sphere and then the floor, RemoveBody precedes DestroyBody; both bodies
are removed and destroyed before UnregisterTypes; and only after
UnregisterTypes is the factory deleted and its pointer reset to null. -/
theorem cleanup_teardown_order :
    (PhysicsEngine.cleanup.indexOf (Call.removeBody BodyKind.sphere)
      < PhysicsEngine.cleanup.indexOf (Call.destroyBody BodyKind.sphere))
    ∧ (PhysicsEngine.cleanup.indexOf (Call.destroyBody BodyKind.sphere)
      < PhysicsEngine.cleanup.indexOf (Call.removeBody BodyKind.floor))
    ∧ (PhysicsEngine.cleanup.indexOf (Call.removeBody BodyKind.floor)
      < PhysicsEngine.cleanup.indexOf (Call.destroyBody BodyKind.floor))
    ∧ (PhysicsEngine.cleanup.indexOf (Call.destroyBody BodyKind.sphere)
      < PhysicsEngine.cleanup.indexOf Call.unregisterTypes)
    ∧ (PhysicsEngine.cleanup.indexOf (Call.destroyBody BodyKind.floor)
      < PhysicsEngine.cleanup.indexOf Call.unregisterTypes)
    ∧ (PhysicsEngine.cleanup.indexOf Call.unregisterTypes
      < PhysicsEngine.cleanup.indexOf Call.factoryDelete)
    ∧ (PhysicsEngine.cleanup.indexOf Call.factoryDelete
      < PhysicsEngine.cleanup.indexOf Call.factorySetNull)
    ∧ Call.removeBody BodyKind.sphere ∈ PhysicsEngine.cleanup
    ∧ Call.destroyBody BodyKind.sphere ∈ PhysicsEngine.cleanup
    ∧ Call.removeBody BodyKind.floor ∈ PhysicsEngine.cleanup
    ∧ Call.destroyBody BodyKind.floor ∈ PhysicsEngine.cleanup
    ∧ Call.unregisterTypes ∈ PhysicsEngine.cleanup
    ∧ Call.factoryDelete ∈ PhysicsEngine.cleanup
    ∧ Call.factorySetNull ∈ PhysicsEngine.cleanup := by
  decide

/-- Claim C7: every engine-step invocation made by PhysicsEngine::update
passes exactly 1 as the collision-steps argument, so the fatal
precondition branch for collisionSubsteps < 1 is unreachable. -/
theorem update_collision_steps_one (e : PhysicsEngine) (bi : BodyInterfaceView)
    (cDeltaTime : Rat) (sp : Vector3) (d : Rat) (c : Int)
    (h : Call.physicsUpdate d c ∈ (PhysicsEngine.update e bi cDeltaTime sp).calls) :
    c = 1 ∧ ¬ c < 1 := by
  by_cases hA : bi.isActive
  · simp [PhysicsEngine.update, hA, cCollisionSteps] at h
    obtain ⟨h1, h2⟩ := h
    subst h2
    exact ⟨rfl, by decide⟩
  · simp [PhysicsEngine.update, hA] at h

/-- Witness for C7: a concrete active update call whose trace contains the
engine step with collision-steps argument 1. -/
theorem update_collision_steps_one_witness : (1 : Int) = 1 ∧ ¬ (1 : Int) < 1 :=
  update_collision_steps_one ⟨0⟩ ⟨true, ⟨0, 0, 0⟩, ⟨0, 0, 0⟩⟩ 1 ⟨0, 0, 0⟩ 1 1
    (by decide)

/-- Counterexample to claim C2 as stated: at a concrete tick on which
IsActive reports false, PhysicsEngine::update performs no engine step —
its call trace contains no PhysicsSystem::Update call. -/
theorem inactive_skip_counterexample :
    (⟨false, ⟨0, 0, 0⟩, ⟨0, 0, 0⟩⟩ : BodyInterfaceView).isActive = false
    ∧ steppedIn
        (PhysicsEngine.update ⟨0⟩ ⟨false, ⟨0, 0, 0⟩, ⟨0, 0, 0⟩⟩ 1
          ⟨0, 0, 0⟩).calls = false := by
  decide

/-- Claim C2 (amended): for every tick on which IsActive reports false,
PhysicsEngine::update returns false WITHOUT invoking the engine step
(pause-on-sleep), and the per-frame physics logging of position/velocity
is skipped (only the inactive log line is emitted). -/
theorem update_inactive_no_step (e : PhysicsEngine) (bi : BodyInterfaceView)
    (cDeltaTime : Rat) (sp : Vector3) (h : bi.isActive = false) :
    (PhysicsEngine.update e bi cDeltaTime sp).returned = false
    ∧ steppedIn (PhysicsEngine.update e bi cDeltaTime sp).calls = false
    ∧ (∀ n : Nat, Call.logStep n ∉ (PhysicsEngine.update e bi cDeltaTime sp).calls)
    ∧ Call.logInactive ∈ (PhysicsEngine.update e bi cDeltaTime sp).calls := by
  simp [PhysicsEngine.update, h, steppedIn, Call.isPhysicsUpdate]

/-- Witness for amended C2 at a concrete inactive update call. -/
theorem update_inactive_no_step_witness :
    (PhysicsEngine.update ⟨5⟩ ⟨false, ⟨1, 2, 3⟩, ⟨0, 0, 0⟩⟩ 1
        ⟨7, 8, 9⟩).returned = false
    ∧ steppedIn
        (PhysicsEngine.update ⟨5⟩ ⟨false, ⟨1, 2, 3⟩, ⟨0, 0, 0⟩⟩ 1
          ⟨7, 8, 9⟩).calls = false
    ∧ (∀ n : Nat, Call.logStep n
        ∉ (PhysicsEngine.update ⟨5⟩ ⟨false, ⟨1, 2, 3⟩, ⟨0, 0, 0⟩⟩ 1
            ⟨7, 8, 9⟩).calls)
    ∧ Call.logInactive
        ∈ (PhysicsEngine.update ⟨5⟩ ⟨false, ⟨1, 2, 3⟩, ⟨0, 0, 0⟩⟩ 1
            ⟨7, 8, 9⟩).calls :=
  update_inactive_no_step ⟨5⟩ ⟨false, ⟨1, 2, 3⟩, ⟨0, 0, 0⟩⟩ 1 ⟨7, 8, 9⟩ rfl

/-- Counterexample to claim C3 as stated: a concrete update call on which
the sphere is inactive increments _step from 0 to 1 although no engine
step (simulation advance) is performed on that call. -/
theorem step_counter_counterexample :
    (PhysicsEngine.update ⟨0⟩ ⟨false, ⟨0, 0, 0⟩, ⟨0, 0, 0⟩⟩ 1
        ⟨0, 0, 0⟩).engine.stepCounter = 1
    ∧ steppedIn
        (PhysicsEngine.update ⟨0⟩ ⟨false, ⟨0, 0, 0⟩, ⟨0, 0, 0⟩⟩ 1
          ⟨0, 0, 0⟩).calls = false := by
  decide

/-- Claim C3 (amended): _step is incremented by exactly 1 (as a 32-bit
unsigned value) on EVERY call to PhysicsEngine::update — including calls
that skip the engine step because the sphere is inactive; the increment
is not tied to a successful simulation advance. -/
theorem step_counter_increment_per_call (e : PhysicsEngine)
    (bi : BodyInterfaceView) (cDeltaTime : Rat) (sp : Vector3) :
    (PhysicsEngine.update e bi cDeltaTime sp).engine.stepCounter
      = (e.stepCounter + 1) % UINT32_MOD := by
  by_cases hA : bi.isActive <;> simp [PhysicsEngine.update, hA]

/-- Claim C10: when the sphere is inactive, update returns false and
leaves sphere_position unchanged; when it is active, update returns true
and overwrites sphere_position with the sphere's center-of-mass position,
which is queried at a trace position strictly before the engine step of
that call. -/
theorem update_pose_publication (e : PhysicsEngine) (bi : BodyInterfaceView)
    (cDeltaTime : Rat) (sp : Vector3) :
    (bi.isActive = false →
      (PhysicsEngine.update e bi cDeltaTime sp).returned = false
      ∧ (PhysicsEngine.update e bi cDeltaTime sp).sphere_position = sp)
    ∧ (bi.isActive = true →
      (PhysicsEngine.update e bi cDeltaTime sp).returned = true
      ∧ (PhysicsEngine.update e bi cDeltaTime sp).sphere_position
          = bi.centerOfMassPosition
      ∧ ∃ i j : Nat, i < j
          ∧ (PhysicsEngine.update e bi cDeltaTime sp).calls.get? i
              = some Call.getCenterOfMassPosition
          ∧ (PhysicsEngine.update e bi cDeltaTime sp).calls.get? j
              = some (Call.physicsUpdate cDeltaTime cCollisionSteps)) := by
  constructor
  · intro h
    simp [PhysicsEngine.update, h]
  · intro h
    refine ⟨?_, ?_, 1, 5, by omega, ?_, ?_⟩ <;> simp [PhysicsEngine.update, h]

/-- Witness for C10 at one concrete inactive and one concrete active call. -/
theorem update_pose_publication_witness :
    ((PhysicsEngine.update ⟨0⟩ ⟨false, ⟨1, 2, 3⟩, ⟨0, 0, 0⟩⟩ 1
        ⟨7, 8, 9⟩).returned = false
      ∧ (PhysicsEngine.update ⟨0⟩ ⟨false, ⟨1, 2, 3⟩, ⟨0, 0, 0⟩⟩ 1
          ⟨7, 8, 9⟩).sphere_position = (⟨7, 8, 9⟩ : Vector3))
    ∧ ((PhysicsEngine.update ⟨0⟩ ⟨true, ⟨1, 2, 3⟩, ⟨0, 0, 0⟩⟩ 1
        ⟨7, 8, 9⟩).returned = true
      ∧ (PhysicsEngine.update ⟨0⟩ ⟨true, ⟨1, 2, 3⟩, ⟨0, 0, 0⟩⟩ 1
          ⟨7, 8, 9⟩).sphere_position = (⟨1, 2, 3⟩ : Vector3)) :=
  ⟨(update_pose_publication ⟨0⟩ ⟨false, ⟨1, 2, 3⟩, ⟨0, 0, 0⟩⟩ 1 ⟨7, 8, 9⟩).1
      rfl,
   ((update_pose_publication ⟨0⟩ ⟨true, ⟨1, 2, 3⟩, ⟨0, 0, 0⟩⟩ 1 ⟨7, 8, 9⟩).2
      rfl).1,
   ((update_pose_publication ⟨0⟩ ⟨true, ⟨1, 2, 3⟩, ⟨0, 0, 0⟩⟩ 1 ⟨7, 8, 9⟩).2
      rfl).2.1⟩

/-- Helper: the main-loop iteration performs an engine step exactly when
the sphere is active, independently of the tick gate. -/
theorem steppedIn_loopIteration (s : LoopState) (fi : FrameInput) :
    steppedIn (loopIteration s fi).2 = fi.bodyView.isActive := by
  by_cases hA : fi.bodyView.isActive <;>
    cases hg : tickGateFires s fi <;>
      simp [loopIteration, hg, PhysicsEngine.update, hA, steppedIn,
            Call.isPhysicsUpdate]

/-- Counterexample to claim C1 as stated: a concrete loop iteration on
which the tick gate does NOT fire (elapsed 0 ≤ 1/60) yet the physics
step IS performed (the sphere is active), so the step call is not gated
by the tick condition. -/
theorem loop_gate_counterexample :
    tickGateFires ⟨0, ⟨0, 0, 0⟩, ⟨0⟩⟩
        ⟨1, 0, 0, ⟨true, ⟨0, 5, 0⟩, ⟨0, 0, 0⟩⟩⟩ = false
    ∧ steppedIn
        (loopIteration ⟨0, ⟨0, 0, 0⟩, ⟨0⟩⟩
          ⟨1, 0, 0, ⟨true, ⟨0, 5, 0⟩, ⟨0, 0, 0⟩⟩⟩).2 = true := by
  constructor
  · simp [tickGateFires, tickGateThreshold, kMillisecondsPerSecond, kTickrate]
    norm_num
  · rw [steppedIn_loopIteration]

/-- Claim C1 (amended): the Stepping Driver performs the physics step on
EVERY loop iteration (whenever the sphere is active, per the engine's
own early-out), not only when the tick gate fires; the step always
receives the frame delta time and collision-steps 1; the tick gate —
elapsed wall-clock time since the last tick strictly exceeding
1/tickRate — controls only the Game_Update (UI/input) call and, when it
fires, resets the accumulator baseline to a fresh time sample. -/
theorem loop_step_ungated (s : LoopState) (fi : FrameInput) :
    steppedIn (loopIteration s fi).2 = fi.bodyView.isActive
    ∧ (∀ (d : Rat) (c : Int),
        Call.physicsUpdate d c ∈ (loopIteration s fi).2 →
          d = fi.frameTime ∧ c = 1)
    ∧ (tickGateFires s fi = true →
        (loopIteration s fi).1.tickTimer = fi.timeSample2
        ∧ Call.gameUpdate ∈ (loopIteration s fi).2)
    ∧ (tickGateFires s fi = false →
        (loopIteration s fi).1.tickTimer = s.tickTimer
        ∧ Call.gameUpdate ∉ (loopIteration s fi).2) := by
  refine ⟨steppedIn_loopIteration s fi, ?_, ?_, ?_⟩
  · intro d c h
    cases hg : tickGateFires s fi <;>
      by_cases hA : fi.bodyView.isActive <;>
        simp [loopIteration, hg, PhysicsEngine.update, hA, cCollisionSteps]
          at h <;>
          exact h
  · intro hg
    by_cases hA : fi.bodyView.isActive <;>
      simp [loopIteration, hg, PhysicsEngine.update, hA]
  · intro hg
    by_cases hA : fi.bodyView.isActive <;>
      simp [loopIteration, hg, PhysicsEngine.update, hA]

/-- Witness for amended C1 at a concrete iteration on which the gate
fires: the baseline is reset to the fresh time sample and Game_Update is
called. -/
theorem loop_step_ungated_witness :
    (loopIteration ⟨0, ⟨0, 0, 0⟩, ⟨0⟩⟩
        ⟨1, 1, 2, ⟨true, ⟨0, 5, 0⟩, ⟨0, 0, 0⟩⟩⟩).1.tickTimer = 2
    ∧ Call.gameUpdate ∈ (loopIteration ⟨0, ⟨0, 0, 0⟩, ⟨0⟩⟩
        ⟨1, 1, 2, ⟨true, ⟨0, 5, 0⟩, ⟨0, 0, 0⟩⟩⟩).2 :=
  (loop_step_ungated ⟨0, ⟨0, 0, 0⟩, ⟨0⟩⟩
      ⟨1, 1, 2, ⟨true, ⟨0, 5, 0⟩, ⟨0, 0, 0⟩⟩⟩).2.2.1
    (by simp [tickGateFires, tickGateThreshold, kMillisecondsPerSecond,
              kTickrate]
        norm_num)

end JoltRaylib
